import Mathlib

set_option maxRecDepth 1000000

/-!
Verification of the configuration-resolution and prompt-assembly pipeline of
the `qik` CLI (Go).  The Go code is shallowly embedded: Go strings are Lean
`String`s (lists of characters), Go maps of moods are association lists
(`List (String × MoodInstruction)`, looked up with `List.lookup`, which
returns the first binding — Go map lookup on a fixed key), and the side
effects of the two orchestrators (`fix`, `answer`) are recorded as an
explicit trace of `Effect`s together with an exit flag.
-/

namespace Qik

/-! ### Embeddings of the Go `strings` functions used by the pipeline -/

/-- Scan-based substring test over character lists, modelling Go
`strings.Contains` (true iff the pattern occurs contiguously). -/
def listContainsSub (pat : List Char) : List Char → Bool
  | [] => pat.isEmpty
  | c :: s => pat.isPrefixOf (c :: s) || listContainsSub pat s

/-- Model of Go `strings.Contains s sub`. -/
def goContains (s sub : String) : Bool :=
  listContainsSub sub.data s.data

/-- Auxiliary scanner for `goReplaceAll`: the `Nat` argument counts characters
still to skip because they belong to an already-replaced occurrence. -/
def replaceAllAux (pat rep : List Char) : Nat → List Char → List Char
  | _, [] => []
  | Nat.succ k, _ :: s => replaceAllAux pat rep k s
  | 0, c :: s =>
    if pat.isPrefixOf (c :: s) then
      rep ++ replaceAllAux pat rep (pat.length - 1) s
    else
      c :: replaceAllAux pat rep 0 s

/-- Model of Go `strings.ReplaceAll s old new`: leftmost, non-overlapping
replacement of every occurrence of `old` by `new`.  For an empty `old`, Go
inserts `new` before every character and at the end. -/
def goReplaceAll (s old new : String) : String :=
  if old.data.isEmpty then
    ⟨new.data ++ s.data.flatMap fun c => c :: new.data⟩
  else
    ⟨replaceAllAux old.data new.data 0 s.data⟩

/-- Model of Go `strings.ToLower` (simple per-character lowering; all strings
the pipeline lowers are ASCII). -/
def goToLower (s : String) : String :=
  ⟨s.data.map Char.toLower⟩

/-- Model of Go `strings.EqualFold` (case-insensitive equality under simple
case folding; all compared strings in the pipeline are ASCII). -/
def goEqualFold (a b : String) : Bool :=
  a.data.map Char.toLower == b.data.map Char.toLower

/-- The ASCII white-space characters recognised by Go `unicode.IsSpace`
(the pipeline only ever trims editor output, which is ASCII-spaced). -/
def isGoSpace (c : Char) : Bool :=
  c == ' ' || c == '\t' || c == '\n' || c == '\r' || c == '\x0b' || c == '\x0c'

/-- Model of Go `strings.TrimSpace`: drop leading and trailing white space. -/
def goTrimSpace (s : String) : String :=
  ⟨((s.data.dropWhile isGoSpace).reverse.dropWhile isGoSpace).reverse⟩

/-! ### Data model (`internal/config/config.go`) -/

/-- Embeds `config.MoodInstruction`: a user-facing description and the
model-facing instruction text of one mood. -/
structure MoodInstruction where
  Description : String
  Instruction : String
deriving DecidableEq, Repr

/-- Embeds `config.Prompts`: the four task prompt templates. -/
structure Prompts where
  Default : String
  EnglishFixOnly : String
  ExplainText : String
  AnswerQuestion : String
deriving DecidableEq, Repr

/-- Embeds `config.Config`: the application configuration.  The Go `map[string]`
of moods is embedded as an association list. -/
structure Config where
  DefaultLanguage : String
  Editor : String
  GeminiAPIKey : String
  GeminiModel : String
  DefaultMood : String
  Moods : List (String × MoodInstruction)
  Prompts : Prompts
deriving DecidableEq, Repr

/-- The zero value of `config.Config` — the state of `AppConfig` when the
config file is missing, empty, or fails to parse/unmarshal. -/
def zeroConfig : Config :=
  { DefaultLanguage := ""
    Editor := ""
    GeminiAPIKey := ""
    GeminiModel := ""
    DefaultMood := ""
    Moods := []
    Prompts := { Default := "", EnglishFixOnly := "", ExplainText := "", AnswerQuestion := "" } }

/-! ### Compiled-in defaults (`cmd` package, `init`, `getDefaultMoods`) -/

/-- Embeds `defaultPromptsConfig`, the built-in default prompt templates set up in
the `cmd` package's `init` function. -/
def defaultPromptsConfig : Prompts :=
  { Default := "You are an expert proofreader and linguistic assistant.
Your primary task is to meticulously review the following text.
Correct all spelling and grammatical errors.
Improve the flow and clarity of the text, rephrasing sentences or restructuring paragraphs if necessary to make it sound natural and well-written.
The final output should be in {LANGUAGE}.
{MOOD_INSTRUCTION}
Do NOT include any preambles, apologies, or explanations in your response. Only return the corrected and refined text.

Original text to process:
---
{TEXT}
---"
    EnglishFixOnly := "You are an expert English proofreader.
Your primary task is to meticulously review the following English text.
Correct all spelling and grammatical errors.
Improve the flow and clarity of the text, rephrasing sentences or restructuring paragraphs if necessary to make it sound natural and well-written.
The text is already in English, so no translation is needed.
{MOOD_INSTRUCTION}
Do NOT include any preambles, apologies, or explanations in your response. Only return the corrected and refined text.

Original text to process:
---
{TEXT}
---"
    ExplainText := "You are an expert at simplifying complex topics.
The user will provide a piece of text. Your task is to explain the main concepts or what the person is talking about in that text.
The explanation should be:
1. Simple and easy to understand, even for someone not familiar with the topic.
2. Concise and to the point. Aim for a short summary.
3. If a specific output language is requested via the {LANGUAGE} placeholder, use that language. Otherwise, attempt to provide the explanation in the SAME language as the input text ({TEXT}).
Do NOT include any preambles, apologies, or phrases like \"This text is about...\". Just provide the explanation directly.

Text to explain:
---
{TEXT}
---"
    AnswerQuestion := "You are an intelligent and helpful assistant.
The user will provide a question. Your task is to provide a clear, concise, and accurate answer to that question.
Consider the following when formulating your response:
1. Directly address the question asked.
2. Provide the answer in the {LANGUAGE} language.
3. Adjust the tone of your answer according to the specified mood: {MOOD_INSTRUCTION}
   If no specific mood instruction is given for \"neutral\", answer in a helpful and informative default tone.
Do NOT include any preambles like \"Here is the answer to your question:\" or \"The answer is:\". Just provide the answer directly.

Question to answer:
---
{TEXT}
---" }

/-- Embeds `getDefaultMoods`: the fixed built-in mood set used when generating a
default config file or when moods are missing from the user's config. -/
def getDefaultMoods : List (String × MoodInstruction) :=
  [ ("neutral", ⟨"Standard correction without specific tone alteration. Relies on base prompt's natural styling.", ""⟩),
    ("professional", ⟨"Refine text to be formal, objective, and suitable for business or academic contexts.", "Additionally, adjust the tone of the text to be highly professional, formal, and objective. Avoid colloquialisms and ensure a polished, business-like feel."⟩),
    ("casual", ⟨"Make the text sound more relaxed, friendly, and conversational.", "Additionally, adjust the tone of the text to be more casual, friendly, and conversational. Use simpler language and a more relaxed style where appropriate."⟩),
    ("funny", ⟨"Inject humor, wit, or lightheartedness into the text (use with care).", "Additionally, try to inject appropriate and subtle humor or a lighthearted tone into the text. Make it engaging and amusing without undermining the core message, if applicable."⟩),
    ("persuasive", ⟨"Make the text more convincing, confident, and impactful.", "Additionally, refine the text to be more persuasive and impactful. Strengthen arguments, use confident language, and aim to convince the reader."⟩),
    ("empathetic", ⟨"Adjust the text to convey understanding, support, and compassion.", "Additionally, adjust the tone to be empathetic and supportive. Use language that conveys understanding and compassion, suitable for sensitive topics."⟩),
    ("concise", ⟨"Make the text as brief and to-the-point as possible, removing fluff.", "Additionally, ensure the text is extremely concise and to-the-point. Remove any redundant words or phrases and focus on conveying the core message with maximum brevity."⟩) ]

/-! ### Configuration resolution (`initConfig`, `part_002` lines 260-301)

`initConfig` first lets viper populate `AppConfig` from the discovered (or
freshly created) config file and the environment overlay; whatever those
sources contain, the unmarshalled value is some `Config`, so the defaulting
phase is modelled as a total function on `Config`.  Each `if` in the Go code
reads and writes one independent field, so the sequence of statements is
expressed field-wise. -/

/-- One scalar-field default: `if field == "" { field = d }`. -/
def defaultIfEmpty (v d : String) : String :=
  if v == "" then d else v

/-- Self-healing for the `default` / `english_fix_only` templates:
replaced when empty or missing the `{MOOD_INSTRUCTION}` placeholder. -/
def healPrompt (p d : String) : String :=
  if p == "" || !goContains p "{MOOD_INSTRUCTION}" then d else p

/-- Filling for the `explain_text` / `answer_question` templates:
replaced only when empty. -/
def fillPrompt (p d : String) : String :=
  if p == "" then d else p

/-- The defaulting phase of `initConfig`: applied to the unmarshalled
`AppConfig`, it substitutes compiled-in defaults for empty scalar fields,
heals/fills the prompt templates, and installs the default mood set when the
moods map is absent or empty. -/
def initConfigDefaults (c : Config) : Config :=
  { c with
    DefaultLanguage := defaultIfEmpty c.DefaultLanguage "Norwegian"
    Editor := defaultIfEmpty c.Editor "nvim"
    GeminiModel := defaultIfEmpty c.GeminiModel "gemini-1.5-flash-latest"
    DefaultMood := defaultIfEmpty c.DefaultMood "neutral"
    Prompts :=
      { Default := healPrompt c.Prompts.Default defaultPromptsConfig.Default
        EnglishFixOnly := healPrompt c.Prompts.EnglishFixOnly defaultPromptsConfig.EnglishFixOnly
        ExplainText := fillPrompt c.Prompts.ExplainText defaultPromptsConfig.ExplainText
        AnswerQuestion := fillPrompt c.Prompts.AnswerQuestion defaultPromptsConfig.AnswerQuestion }
    Moods := if c.Moods.isEmpty then getDefaultMoods else c.Moods }

/-! ### Mood resolution (`cmd/fix.go` lines 79-100, `cmd/answer.go` lines 51-73) -/

/-- Outcome of the mood-resolution block: the resolved mood key, the
instruction text, and which of the two warnings were printed. -/
structure MoodResolution where
  selectedMoodKey : String
  instruction : String
  warnedUnknown : Bool
  warnedDefaultMissing : Bool
deriving DecidableEq, Repr

/-- Mood resolution in `fixCmd`: the requested key (the `--mood` flag when
changed, else the configured default) is looked up; on a miss a warning is
printed when a specific non-default key was requested, and the configured
default mood's instruction is used, keeping the requested key as the
selected key; if the default mood is missing too, a second warning is
printed and the instruction stays empty. -/
def fixResolveMood (cfg : Config) (moodFlagChanged : Bool) (moodKey : String) : MoodResolution :=
  let selectedMoodKey := if moodFlagChanged then moodKey else cfg.DefaultMood
  match cfg.Moods.lookup selectedMoodKey with
  | some mood => ⟨selectedMoodKey, mood.Instruction, false, false⟩
  | none =>
    let warned := selectedMoodKey != "" && selectedMoodKey != cfg.DefaultMood
    match cfg.Moods.lookup cfg.DefaultMood with
    | some defaultMood => ⟨selectedMoodKey, defaultMood.Instruction, warned, false⟩
    | none => ⟨selectedMoodKey, "", warned, true⟩

/-- Mood resolution in `answerCmd`: identical to `fixResolveMood` except
that on the default-mood fallback the selected key is rewritten to
`cfg.DefaultMood` (fix keeps the requested key). -/
def answerResolveMood (cfg : Config) (moodFlagChanged : Bool) (moodKey : String) : MoodResolution :=
  let selectedMoodKey := if moodFlagChanged then moodKey else cfg.DefaultMood
  match cfg.Moods.lookup selectedMoodKey with
  | some mood => ⟨selectedMoodKey, mood.Instruction, false, false⟩
  | none =>
    let warned := selectedMoodKey != "" && selectedMoodKey != cfg.DefaultMood
    match cfg.Moods.lookup cfg.DefaultMood with
    | some defaultMood => ⟨cfg.DefaultMood, defaultMood.Instruction, warned, false⟩
    | none => ⟨selectedMoodKey, "", warned, true⟩

/-- The fixed fallback sentence `answerCmd` substitutes for an empty
neutral mood instruction. -/
def answerNeutralFallback : String :=
  "Answer in a standard, helpful, and informative tone."

/-- The neutral special case of `answerCmd` (lines 77-79): an empty
instruction with selected mood key "neutral" becomes the fixed fallback
sentence.  `fixCmd` has no counterpart of this step. -/
def answerEffectiveInstruction (selectedMoodKey instruction : String) : String :=
  if instruction == "" && selectedMoodKey == "neutral" then answerNeutralFallback
  else instruction

/-! ### Template selection (`cmd/fix.go` lines 53-77) -/

/-- Outcome of prompt-template selection in `fixCmd`: the chosen template
body, the (possibly updated) target language, and whether the
unknown-prompt-key warning was printed. -/
structure TemplateChoice where
  template : String
  targetLanguage : String
  warnedUnknownPrompt : Bool
deriving DecidableEq, Repr

/-- Template selection in `fixCmd`: a non-empty `--prompt` key is matched
case-insensitively against "default" and "english_fix_only" (the latter
forces the target language to English); an unknown key warns and falls back
to the default template leaving the language unchanged.  With no key, the
`english_fix_only` template is chosen exactly when the target language
equals "English" case-insensitively and that template is non-empty. -/
def fixSelectTemplate (cfg : Config) (promptKey targetLanguage : String) : TemplateChoice :=
  if promptKey != "" then
    if goToLower promptKey == "default" then
      ⟨cfg.Prompts.Default, targetLanguage, false⟩
    else if goToLower promptKey == "english_fix_only" then
      ⟨cfg.Prompts.EnglishFixOnly, "English", false⟩
    else
      ⟨cfg.Prompts.Default, targetLanguage, true⟩
  else if goEqualFold targetLanguage "English" && cfg.Prompts.EnglishFixOnly != "" then
    ⟨cfg.Prompts.EnglishFixOnly, targetLanguage, false⟩
  else
    ⟨cfg.Prompts.Default, targetLanguage, false⟩

/-! ### Prompt assembly and the model-client boundary -/

/-- Final prompt assembly shared by both orchestrators: every occurrence of
the `{MOOD_INSTRUCTION}` placeholder in the chosen template is replaced by
the mood instruction text (`strings.ReplaceAll`). -/
def assemblePrompt (template instruction : String) : String :=
  goReplaceAll template "{MOOD_INSTRUCTION}" instruction

/-- The string `ProcessText` (`internal/ai/gemini.go` lines 65-68) hands to
the model: `{TEXT}` is replaced by the raw input first, then `{LANGUAGE}` by
the resolved language. -/
def ProcessTextPrompt (textToProcess promptTemplate targetLanguage : String) : String :=
  goReplaceAll (goReplaceAll promptTemplate "{TEXT}" textToProcess) "{LANGUAGE}" targetLanguage

/-! ### The `--english` shorthand (`cmd/fix.go` `PersistentPreRunE`) -/

/-- The error message of the `--english` / `--language` conflict. -/
def englishConflictError : String :=
  "--english flag is incompatible with --language specifying a different language than English"

/-- Embeds `fixCmd.PersistentPreRunE`: with `--english` set, a non-empty
`--language` value not equal (case-insensitively) to "English" is an error;
otherwise the language is forced to "English" and, when `--prompt` was not
explicitly set, the prompt key becomes "english_fix_only".  Returns the
effective (language, promptKey) pair.  Cobra runs this before the command
body and aborts the invocation on error. -/
def fixPersistentPreRun (englishShorthand : Bool) (language : String)
    (promptChanged : Bool) (promptKey : String) : Except String (String × String) :=
  if englishShorthand then
    if language != "" && !goEqualFold language "English" then
      .error englishConflictError
    else
      .ok ("English", if !promptChanged then "english_fix_only" else promptKey)
  else
    .ok (language, promptKey)

/-! ### Orchestrators as effect traces (`cmd/fix.go` `Run`, `cmd/answer.go` `Run`) -/

/-- Externally visible actions of one invocation: opening the editor,
calling the model client with the fully substituted prompt, attempting a
clipboard write, and printing result text to the terminal.  Informational
status lines are not recorded. -/
inductive Effect where
  | openEditor : Effect
  | modelCall : String → Effect
  | clipboardWrite : String → Effect
  | printResult : String → Effect
deriving DecidableEq, Repr

/-- Exit flag (`true` = exit code 0) plus the ordered effect trace of one
command invocation. -/
structure RunOutcome where
  exitOk : Bool
  effects : List Effect
deriving DecidableEq, Repr

/-- The pure assembly phase of `fixCmd.Run` (lines 47-104): target-language
resolution from the `--language` flag, template selection, mood resolution,
and the `{MOOD_INSTRUCTION}` substitution. -/
structure FixAssembly where
  choice : TemplateChoice
  mood : MoodResolution
  finalPrompt : String
deriving DecidableEq, Repr

/-- Computes the assembly phase of `fixCmd.Run`.  The resolved target
language (possibly forced to "English" by the `english_fix_only` prompt
key) is `(fixAssemble ...).choice.targetLanguage`. -/
def fixAssemble (cfg : Config) (languageFlag promptKeyFlag : String)
    (moodFlagChanged : Bool) (moodKeyFlag : String) : FixAssembly :=
  let targetLanguage := if languageFlag != "" then languageFlag else cfg.DefaultLanguage
  let tc := fixSelectTemplate cfg promptKeyFlag targetLanguage
  let mr := fixResolveMood cfg moodFlagChanged moodKeyFlag
  ⟨tc, mr, assemblePrompt tc.template mr.instruction⟩

/-- Embeds the body of `fixCmd.Run`, with the external collaborators as
parameters: `apiKey` the resolved credential (empty means not found, a
fatal error), `editorText` the captured text, `modelResult` the model
client's reply, `clipboardOk` whether the clipboard write succeeds.
Assembly (language, template, mood) happens before the editor opens;
empty-after-trim input returns cleanly; a clipboard failure prints the
text as a rescue and still exits non-zero. -/
def fixRun (cfg : Config) (apiKey : String) (languageFlag promptKeyFlag : String)
    (moodFlagChanged : Bool) (moodKeyFlag : String)
    (editorText : String) (modelResult : Except String String) (clipboardOk : Bool) :
    RunOutcome :=
  if apiKey == "" then ⟨false, []⟩
  else
    let fa := fixAssemble cfg languageFlag promptKeyFlag moodFlagChanged moodKeyFlag
    if fa.choice.template == "" then ⟨false, []⟩
    else
      if goTrimSpace editorText == "" then ⟨true, [.openEditor]⟩
      else
        let sentPrompt := ProcessTextPrompt editorText fa.finalPrompt fa.choice.targetLanguage
        match modelResult with
        | .error _ => ⟨false, [.openEditor, .modelCall sentPrompt]⟩
        | .ok processed =>
          if clipboardOk then
            ⟨true, [.openEditor, .modelCall sentPrompt, .clipboardWrite processed]⟩
          else
            ⟨false, [.openEditor, .modelCall sentPrompt, .clipboardWrite processed,
                     .printResult processed]⟩

/-- The whole `fix` invocation: `PersistentPreRunE` first; on its error the
command body never runs (no effects, non-zero exit), otherwise `fixRun`
with the effective language and prompt key. -/
def fixCommand (cfg : Config) (apiKey : String) (englishFlag : Bool) (languageFlag : String)
    (promptChanged : Bool) (promptKeyFlag : String)
    (moodFlagChanged : Bool) (moodKeyFlag : String)
    (editorText : String) (modelResult : Except String String) (clipboardOk : Bool) :
    RunOutcome :=
  match fixPersistentPreRun englishFlag languageFlag promptChanged promptKeyFlag with
  | .error _ => ⟨false, []⟩
  | .ok (lang, pk) =>
    fixRun cfg apiKey lang pk moodFlagChanged moodKeyFlag editorText modelResult clipboardOk

/-- Embeds the body of `answerCmd.Run`: language from the `--language` flag
when changed, mood resolution with the answer-specific key rewrite and the
neutral fallback sentence, a fatal error on an empty `answer_question`
template, clean exit on empty-after-trim input, and terminal output of the
trimmed answer; a `--copy` clipboard failure is non-fatal. -/
def answerRun (cfg : Config) (apiKey : String) (languageChanged : Bool) (languageFlag : String)
    (moodFlagChanged : Bool) (moodKeyFlag : String) (copyFlag : Bool)
    (editorText : String) (modelResult : Except String String) :
    RunOutcome :=
  if apiKey == "" then ⟨false, []⟩
  else
    let targetLanguage := if languageChanged then languageFlag else cfg.DefaultLanguage
    let mr := answerResolveMood cfg moodFlagChanged moodKeyFlag
    let instr := answerEffectiveInstruction mr.selectedMoodKey mr.instruction
    if cfg.Prompts.AnswerQuestion == "" then ⟨false, []⟩
    else
      let promptWithMood := assemblePrompt cfg.Prompts.AnswerQuestion instr
      if goTrimSpace editorText == "" then ⟨true, [.openEditor]⟩
      else
        let sentPrompt := ProcessTextPrompt editorText promptWithMood targetLanguage
        match modelResult with
        | .error _ => ⟨false, [.openEditor, .modelCall sentPrompt]⟩
        | .ok answer =>
          let base := [Effect.openEditor, .modelCall sentPrompt,
                       .printResult (goTrimSpace answer)]
          if copyFlag then ⟨true, base ++ [.clipboardWrite answer]⟩
          else ⟨true, base⟩

/-! ### Basic lemmas about the string embeddings -/

/-- The scan-based substring test agrees with list-infix containment. -/
theorem listContainsSub_spec (pat : List Char) (l : List Char) :
    listContainsSub pat l = true ↔ pat <:+: l := by
  induction l with
  | nil => simp [listContainsSub]
  | cons c t ih =>
    simp [listContainsSub, List.infix_cons_iff, ih, List.isPrefixOf_iff_prefix]

/-- Substring containment in terms of `List.IsInfix` on character data. -/
theorem goContains_spec (s sub : String) :
    goContains s sub = true ↔ sub.data <:+: s.data := by
  unfold goContains
  exact listContainsSub_spec sub.data s.data

/-! ### Lemmas about configuration resolution -/

theorem defaultIfEmpty_ne (v d : String) (hd : d ≠ "") : defaultIfEmpty v d ≠ "" := by
  unfold defaultIfEmpty
  split
  · exact hd
  · next h => simpa using h

theorem healPrompt_ne (p d : String) (hd : d ≠ "") : healPrompt p d ≠ "" := by
  unfold healPrompt
  split
  · exact hd
  · next h =>
    simp only [Bool.or_eq_true, beq_iff_eq, Bool.not_eq_true', not_or] at h
    exact h.1

theorem healPrompt_contains (p d : String)
    (hd : goContains d "{MOOD_INSTRUCTION}" = true) :
    goContains (healPrompt p d) "{MOOD_INSTRUCTION}" = true := by
  unfold healPrompt
  split
  · exact hd
  · next h =>
    simp only [Bool.or_eq_true, beq_iff_eq, Bool.not_eq_true', not_or] at h
    exact Bool.not_eq_false _ |>.mp h.2 |> fun hh => by simpa using hh

theorem fillPrompt_ne (p d : String) (hd : d ≠ "") : fillPrompt p d ≠ "" := by
  unfold fillPrompt
  split
  · exact hd
  · next h => simpa using h

theorem initConfigDefaults_moods_ne (c : Config) : (initConfigDefaults c).Moods ≠ [] := by
  show (if c.Moods.isEmpty then getDefaultMoods else c.Moods) ≠ []
  split
  · decide
  · next h => simpa using h

/-! ### Claim theorems -/

/-- C1: After configuration resolution completes — whatever `Config` value
the file/environment sources unmarshalled to, including the zero value left
by a missing, empty or unparseable file — the resulting configuration has
non-empty defaultLanguage, editor, geminiModel and defaultMood fields, all
four prompt templates non-empty, and a non-empty moods map. -/
theorem initConfig_resolved_invariants (c : Config) :
    (initConfigDefaults c).DefaultLanguage ≠ "" ∧
    (initConfigDefaults c).Editor ≠ "" ∧
    (initConfigDefaults c).GeminiModel ≠ "" ∧
    (initConfigDefaults c).DefaultMood ≠ "" ∧
    (initConfigDefaults c).Prompts.Default ≠ "" ∧
    (initConfigDefaults c).Prompts.EnglishFixOnly ≠ "" ∧
    (initConfigDefaults c).Prompts.ExplainText ≠ "" ∧
    (initConfigDefaults c).Prompts.AnswerQuestion ≠ "" ∧
    (initConfigDefaults c).Moods ≠ [] := by
  refine ⟨?_, ?_, ?_, ?_, ?_, ?_, ?_, ?_, ?_⟩
  · exact defaultIfEmpty_ne _ _ (by decide)
  · exact defaultIfEmpty_ne _ _ (by decide)
  · exact defaultIfEmpty_ne _ _ (by decide)
  · exact defaultIfEmpty_ne _ _ (by decide)
  · exact healPrompt_ne _ _ (by decide)
  · exact healPrompt_ne _ _ (by decide)
  · exact fillPrompt_ne _ _ (by decide)
  · exact fillPrompt_ne _ _ (by decide)
  · exact initConfigDefaults_moods_ne c

/-- A loaded configuration whose `default` prompt template is non-empty and
contains `{MOOD_INSTRUCTION}` but lacks `{TEXT}`: resolution keeps it
unchanged, because `initConfig` only checks emptiness and the
`{MOOD_INSTRUCTION}` placeholder. -/
def staleTemplateConfig : Config :=
  { zeroConfig with
    Prompts := { Default := "Improve the text. {MOOD_INSTRUCTION}"
                 EnglishFixOnly := ""
                 ExplainText := ""
                 AnswerQuestion := "" } }

/-- C3 (counterexample): resolving a configuration whose `default` template
is "Improve the text. \x7bMOOD_INSTRUCTION\x7d" keeps that template, so a
freshly-resolved configuration's `default` prompt template need not contain
the literal substring `{TEXT}` — refuting the claim as stated. -/
theorem resolved_template_can_lack_text_token :
    goContains (initConfigDefaults staleTemplateConfig).Prompts.Default "{TEXT}" = false ∧
    (initConfigDefaults staleTemplateConfig).Prompts.Default
      = "Improve the text. {MOOD_INSTRUCTION}" := by
  constructor
  · decide
  · decide

/-- C3 (amended): for every resolved configuration, the `default` and
`english_fix_only` templates contain `{MOOD_INSTRUCTION}` (and the other two
templates are non-empty); the `{TEXT}` guarantee holds for the compiled-in
templates, i.e. resolving the zero configuration (missing/empty config file)
yields four templates that all contain `{TEXT}` — but a non-empty
user-supplied template lacking `{TEXT}` survives resolution untouched. -/
theorem resolved_template_tokens (c : Config) :
    goContains (initConfigDefaults c).Prompts.Default "{MOOD_INSTRUCTION}" = true ∧
    goContains (initConfigDefaults c).Prompts.EnglishFixOnly "{MOOD_INSTRUCTION}" = true ∧
    (initConfigDefaults c).Prompts.ExplainText ≠ "" ∧
    (initConfigDefaults c).Prompts.AnswerQuestion ≠ "" ∧
    goContains (initConfigDefaults zeroConfig).Prompts.Default "{TEXT}" = true ∧
    goContains (initConfigDefaults zeroConfig).Prompts.EnglishFixOnly "{TEXT}" = true ∧
    goContains (initConfigDefaults zeroConfig).Prompts.ExplainText "{TEXT}" = true ∧
    goContains (initConfigDefaults zeroConfig).Prompts.AnswerQuestion "{TEXT}" = true := by
  refine ⟨?_, ?_, ?_, ?_, ?_, ?_, ?_, ?_⟩
  · exact healPrompt_contains _ _ (by decide)
  · exact healPrompt_contains _ _ (by decide)
  · exact fillPrompt_ne _ _ (by decide)
  · exact fillPrompt_ne _ _ (by decide)
  · decide
  · decide
  · decide
  · decide

/-- C2: when the resolved mood key is exactly "neutral" and its instruction
text is empty, assembling the `answer` prompt substitutes the fixed fallback
sentence for `{MOOD_INSTRUCTION}` (via `answerEffectiveInstruction`), while
the `fix` assembly under the identical condition substitutes the empty
string. -/
theorem neutral_mood_asymmetry (cfg : Config) (mc : Bool) (mk : String)
    (ha : (answerResolveMood cfg mc mk).selectedMoodKey = "neutral")
    (ha2 : (answerResolveMood cfg mc mk).instruction = "")
    (hf : (fixResolveMood cfg mc mk).selectedMoodKey = "neutral")
    (hf2 : (fixResolveMood cfg mc mk).instruction = "") :
    assemblePrompt cfg.Prompts.AnswerQuestion
        (answerEffectiveInstruction (answerResolveMood cfg mc mk).selectedMoodKey
          (answerResolveMood cfg mc mk).instruction)
      = goReplaceAll cfg.Prompts.AnswerQuestion "{MOOD_INSTRUCTION}" answerNeutralFallback ∧
    ∀ template : String,
      assemblePrompt template (fixResolveMood cfg mc mk).instruction
        = goReplaceAll template "{MOOD_INSTRUCTION}" "" := by
  constructor
  · rw [ha, ha2]
    rfl
  · intro template
    rw [hf2]
    rfl

/-- C2 witness: with the configuration resolved from the zero value, the
default mood is "neutral" with an empty instruction, and the two assemblies
substitute the fallback sentence (answer) and the empty string (fix). -/
theorem neutral_mood_asymmetry_witness :
    ((answerResolveMood (initConfigDefaults zeroConfig) false "").selectedMoodKey = "neutral" ∧
     (answerResolveMood (initConfigDefaults zeroConfig) false "").instruction = "" ∧
     (fixResolveMood (initConfigDefaults zeroConfig) false "").selectedMoodKey = "neutral" ∧
     (fixResolveMood (initConfigDefaults zeroConfig) false "").instruction = "") ∧
    assemblePrompt (initConfigDefaults zeroConfig).Prompts.AnswerQuestion
        (answerEffectiveInstruction
          (answerResolveMood (initConfigDefaults zeroConfig) false "").selectedMoodKey
          (answerResolveMood (initConfigDefaults zeroConfig) false "").instruction)
      = goReplaceAll (initConfigDefaults zeroConfig).Prompts.AnswerQuestion
          "{MOOD_INSTRUCTION}" answerNeutralFallback ∧
    assemblePrompt "Task. {MOOD_INSTRUCTION}"
        (fixResolveMood (initConfigDefaults zeroConfig) false "").instruction
      = goReplaceAll "Task. {MOOD_INSTRUCTION}" "{MOOD_INSTRUCTION}" "" :=
  ⟨⟨by decide, by decide, by decide, by decide⟩,
   (neutral_mood_asymmetry (initConfigDefaults zeroConfig) false ""
      (by decide) (by decide) (by decide) (by decide)).1,
   (neutral_mood_asymmetry (initConfigDefaults zeroConfig) false ""
      (by decide) (by decide) (by decide) (by decide)).2 "Task. {MOOD_INSTRUCTION}"⟩

/-- A configuration whose moods map is non-empty but lacks the configured
default mood key (used to exercise the missing-default fallback). -/
def missingDefaultMoodConfig : Config :=
  { zeroConfig with
    DefaultMood := "neutral"
    Moods := [("quirky", ⟨"A mood the default does not name.", "Be quirky."⟩)] }

/-- C4: (a) in any configuration whose moods map contains the default mood
"neutral", requesting an unknown mood key resolves to the same instruction
text as requesting "neutral" directly and sets the unknown-mood warning, in
both orchestrators; (b) if even the default mood key is absent from the
moods map, the missing-default warning is set and the empty instruction is
used. -/
theorem mood_fallback_correct :
    (∀ (cfg : Config) (k : String) (m : MoodInstruction),
      cfg.DefaultMood = "neutral" →
      cfg.Moods.lookup k = none →
      k ≠ "" → k ≠ "neutral" →
      cfg.Moods.lookup "neutral" = some m →
      ((fixResolveMood cfg true k).instruction
          = (fixResolveMood cfg true "neutral").instruction ∧
       (fixResolveMood cfg true k).warnedUnknown = true ∧
       (answerResolveMood cfg true k).instruction
          = (answerResolveMood cfg true "neutral").instruction ∧
       (answerResolveMood cfg true k).warnedUnknown = true)) ∧
    (∀ (cfg : Config) (mc : Bool) (mk : String),
      cfg.Moods.lookup (if mc then mk else cfg.DefaultMood) = none →
      cfg.Moods.lookup cfg.DefaultMood = none →
      ((fixResolveMood cfg mc mk).instruction = "" ∧
       (fixResolveMood cfg mc mk).warnedDefaultMissing = true ∧
       (answerResolveMood cfg mc mk).instruction = "" ∧
       (answerResolveMood cfg mc mk).warnedDefaultMissing = true)) := by
  constructor
  · intro cfg k m hdm hk hne hnn hneutral
    simp only [fixResolveMood, answerResolveMood, if_true, hdm, hk, hneutral]
    simp [hne, hnn, bne_iff_ne]
  · intro cfg mc mk hmiss hdefault
    simp only [fixResolveMood, answerResolveMood, hmiss, hdefault]
    exact ⟨trivial, trivial, trivial, trivial⟩

/-- C4 witness: in the configuration resolved from the zero value (default
mood "neutral", the seven built-in moods), requesting "bogus" yields the
same instruction as requesting "neutral" with the warning set; in a
configuration whose moods map lacks the default mood, the second warning is
set and the instruction is empty. -/
theorem mood_fallback_correct_witness :
    ((initConfigDefaults zeroConfig).Moods.lookup "bogus" = none ∧
     (fixResolveMood (initConfigDefaults zeroConfig) true "bogus").instruction
        = (fixResolveMood (initConfigDefaults zeroConfig) true "neutral").instruction ∧
     (fixResolveMood (initConfigDefaults zeroConfig) true "bogus").warnedUnknown = true ∧
     (answerResolveMood (initConfigDefaults zeroConfig) true "bogus").instruction
        = (answerResolveMood (initConfigDefaults zeroConfig) true "neutral").instruction ∧
     (answerResolveMood (initConfigDefaults zeroConfig) true "bogus").warnedUnknown = true) ∧
    ((fixResolveMood missingDefaultMoodConfig false "").instruction = "" ∧
     (fixResolveMood missingDefaultMoodConfig false "").warnedDefaultMissing = true ∧
     (answerResolveMood missingDefaultMoodConfig false "").instruction = "" ∧
     (answerResolveMood missingDefaultMoodConfig false "").warnedDefaultMissing = true) :=
  ⟨⟨by decide,
    mood_fallback_correct.1 (initConfigDefaults zeroConfig) "bogus"
      ⟨"Standard correction without specific tone alteration. Relies on base prompt's natural styling.", ""⟩
      rfl (by decide) (by decide) (by decide) rfl⟩,
   mood_fallback_correct.2 missingDefaultMoodConfig false "" (by decide) (by decide)⟩

/-- C9: when the requested mood key is not found and the configured default
mood exists, `answerCmd` rewrites the resolved mood key to the configured
default while `fixCmd` keeps the unknown requested key; both use the default
mood's instruction.  Consequently, with default mood "neutral" whose
instruction is empty, the answer orchestrator's effective instruction is the
fixed neutral fallback sentence. -/
theorem unknown_mood_key_resolution (cfg : Config) (k : String) (dm : MoodInstruction)
    (hk : cfg.Moods.lookup k = none)
    (hd : cfg.Moods.lookup cfg.DefaultMood = some dm) :
    (answerResolveMood cfg true k).selectedMoodKey = cfg.DefaultMood ∧
    (fixResolveMood cfg true k).selectedMoodKey = k ∧
    (answerResolveMood cfg true k).instruction = dm.Instruction ∧
    (fixResolveMood cfg true k).instruction = dm.Instruction ∧
    (cfg.DefaultMood = "neutral" → dm.Instruction = "" →
      answerEffectiveInstruction (answerResolveMood cfg true k).selectedMoodKey
          (answerResolveMood cfg true k).instruction
        = answerNeutralFallback) := by
  simp only [answerResolveMood, fixResolveMood, if_true, hk, hd]
  refine ⟨trivial, trivial, trivial, trivial, ?_⟩
  intro hdm hinstr
  simp [answerEffectiveInstruction, hdm, hinstr]

/-- C9 witness: with the configuration resolved from the zero value
(default mood "neutral" mapped to the empty instruction), requesting
"bogus" makes the answer orchestrator resolve the key to "neutral" and its
effective instruction the fallback sentence, while the fix orchestrator
keeps "bogus". -/
theorem unknown_mood_key_resolution_witness :
    ((initConfigDefaults zeroConfig).Moods.lookup "bogus" = none ∧
     (initConfigDefaults zeroConfig).DefaultMood = "neutral") ∧
    (answerResolveMood (initConfigDefaults zeroConfig) true "bogus").selectedMoodKey
      = (initConfigDefaults zeroConfig).DefaultMood ∧
    (fixResolveMood (initConfigDefaults zeroConfig) true "bogus").selectedMoodKey = "bogus" ∧
    answerEffectiveInstruction
        (answerResolveMood (initConfigDefaults zeroConfig) true "bogus").selectedMoodKey
        (answerResolveMood (initConfigDefaults zeroConfig) true "bogus").instruction
      = answerNeutralFallback :=
  have h := unknown_mood_key_resolution (initConfigDefaults zeroConfig) "bogus"
    ⟨"Standard correction without specific tone alteration. Relies on base prompt's natural styling.", ""⟩
    (by decide) rfl
  ⟨⟨by decide, by decide⟩, h.1, h.2.1, h.2.2.2.2 (by decide) (by decide)⟩

/-- C5: template selection for the fix task.  A supplied (non-empty)
`--prompt` key recognised case-insensitively as "default" or
"english_fix_only" selects the corresponding template (the latter forcing
the language to English); an unrecognised key falls back to the default
template with a warning, leaving the resolved language unchanged.  With no
key, the `english_fix_only` template is selected exactly when the resolved
language equals English case-insensitively and that template is non-empty;
otherwise the default template is selected. -/
theorem fix_template_selection (cfg : Config) (pk lang : String) :
    (pk ≠ "" → goToLower pk = "default" →
      fixSelectTemplate cfg pk lang = ⟨cfg.Prompts.Default, lang, false⟩) ∧
    (pk ≠ "" → goToLower pk = "english_fix_only" →
      fixSelectTemplate cfg pk lang = ⟨cfg.Prompts.EnglishFixOnly, "English", false⟩) ∧
    (pk ≠ "" → goToLower pk ≠ "default" → goToLower pk ≠ "english_fix_only" →
      fixSelectTemplate cfg pk lang = ⟨cfg.Prompts.Default, lang, true⟩) ∧
    (goEqualFold lang "English" = true → cfg.Prompts.EnglishFixOnly ≠ "" →
      fixSelectTemplate cfg "" lang = ⟨cfg.Prompts.EnglishFixOnly, lang, false⟩) ∧
    ((goEqualFold lang "English" = false ∨ cfg.Prompts.EnglishFixOnly = "") →
      fixSelectTemplate cfg "" lang = ⟨cfg.Prompts.Default, lang, false⟩) := by
  refine ⟨?_, ?_, ?_, ?_, ?_⟩
  · intro hne hlow
    simp [fixSelectTemplate, hne, hlow, bne_iff_ne]
  · intro hne hlow
    simp [fixSelectTemplate, hne, hlow, bne_iff_ne]
  · intro hne h1 h2
    simp [fixSelectTemplate, hne, h1, h2, bne_iff_ne]
  · intro hfold hne
    simp [fixSelectTemplate, hfold, hne, bne_iff_ne]
  · intro h
    rcases h with h | h <;> simp [fixSelectTemplate, h, bne_iff_ne]

/-- C5 witness: concrete selections with the configuration resolved from
the zero value — "DEFAULT" and "English_Fix_Only" are recognised
case-insensitively, "bogus" warns and keeps language "German", and with no
key the language "english" routes to the `english_fix_only` template while
"German" routes to the default template. -/
theorem fix_template_selection_witness :
    fixSelectTemplate (initConfigDefaults zeroConfig) "DEFAULT" "German"
      = ⟨(initConfigDefaults zeroConfig).Prompts.Default, "German", false⟩ ∧
    fixSelectTemplate (initConfigDefaults zeroConfig) "English_Fix_Only" "German"
      = ⟨(initConfigDefaults zeroConfig).Prompts.EnglishFixOnly, "English", false⟩ ∧
    fixSelectTemplate (initConfigDefaults zeroConfig) "bogus" "German"
      = ⟨(initConfigDefaults zeroConfig).Prompts.Default, "German", true⟩ ∧
    fixSelectTemplate (initConfigDefaults zeroConfig) "" "english"
      = ⟨(initConfigDefaults zeroConfig).Prompts.EnglishFixOnly, "english", false⟩ ∧
    fixSelectTemplate (initConfigDefaults zeroConfig) "" "German"
      = ⟨(initConfigDefaults zeroConfig).Prompts.Default, "German", false⟩ :=
  have h1 := fix_template_selection (initConfigDefaults zeroConfig) "DEFAULT" "German"
  have h2 := fix_template_selection (initConfigDefaults zeroConfig) "English_Fix_Only" "German"
  have h3 := fix_template_selection (initConfigDefaults zeroConfig) "bogus" "German"
  have h4 := fix_template_selection (initConfigDefaults zeroConfig) "" "english"
  have h5 := fix_template_selection (initConfigDefaults zeroConfig) "" "German"
  ⟨h1.1 (by decide) (by decide),
   h2.2.1 (by decide) (by decide),
   h3.2.2.1 (by decide) (by decide) (by decide),
   h4.2.2.2.1 (by decide) (by decide),
   h5.2.2.2.2 (Or.inl (by decide))⟩

/-- C6: supplying `--english` together with a `--language` value that is
not English fails in `PersistentPreRunE` with the descriptive conflict
error, so the command body never runs: no editor invocation, no model call,
non-zero exit.  Without a conflicting `--language`, the language is forced
to "English" and, unless `--prompt` was explicitly set, the prompt key
becomes "english_fix_only". -/
theorem english_flag_behavior :
    (∀ (lang : String) (pc : Bool) (pk : String),
      lang ≠ "" → goEqualFold lang "English" = false →
      fixPersistentPreRun true lang pc pk = .error englishConflictError ∧
      englishConflictError ≠ "") ∧
    (∀ (cfg : Config) (apiKey lang : String) (pc : Bool) (pk : String)
       (mc : Bool) (mk editorText : String) (mres : Except String String) (clip : Bool),
      lang ≠ "" → goEqualFold lang "English" = false →
      fixCommand cfg apiKey true lang pc pk mc mk editorText mres clip
        = ⟨false, []⟩) ∧
    (∀ (lang pk : String), lang = "" ∨ goEqualFold lang "English" = true →
      fixPersistentPreRun true lang false pk = .ok ("English", "english_fix_only") ∧
      fixPersistentPreRun true lang true pk = .ok ("English", pk)) := by
  have hpre : ∀ (lang : String) (pc : Bool) (pk : String),
      lang ≠ "" → goEqualFold lang "English" = false →
      fixPersistentPreRun true lang pc pk = .error englishConflictError := by
    intro lang pc pk hne hfold
    simp [fixPersistentPreRun, hne, hfold, bne_iff_ne]
  refine ⟨fun lang pc pk hne hfold => ⟨hpre lang pc pk hne hfold, by decide⟩, ?_, ?_⟩
  · intro cfg apiKey lang pc pk mc mk editorText mres clip hne hfold
    unfold fixCommand
    rw [hpre lang pc pk hne hfold]
  · intro lang pk h
    rcases h with h | h <;>
      constructor <;>
        simp [fixPersistentPreRun, h, bne_iff_ne]

/-- C6 witness: `--english --language German` yields exactly the conflict
error and an empty effect trace with non-zero exit; `--english` alone (or
with `--language English`) forces ("English", "english_fix_only"), and with
an explicit `--prompt` keeps that prompt key. -/
theorem english_flag_behavior_witness :
    (fixPersistentPreRun true "German" false ""
        = .error englishConflictError ∧ englishConflictError ≠ "") ∧
    fixCommand (initConfigDefaults zeroConfig) "key" true "German" false "" false ""
        "helo wrold" (.ok "Hello world") true = ⟨false, []⟩ ∧
    (fixPersistentPreRun true "" false "" = .ok ("English", "english_fix_only") ∧
     fixPersistentPreRun true "" true "default" = .ok ("English", "default")) :=
  ⟨english_flag_behavior.1 "German" false "" (by decide) (by decide),
   english_flag_behavior.2.1 (initConfigDefaults zeroConfig) "key" "German" false ""
     false "" "helo wrold" (.ok "Hello world") true (by decide) (by decide),
   ⟨(english_flag_behavior.2.2 "" "" (Or.inl rfl)).1,
    (english_flag_behavior.2.2 "" "default" (Or.inl rfl)).2⟩⟩

/-- Whatever the flags, `fixSelectTemplate` always picks one of the two fix
templates of the configuration. -/
theorem fixSelectTemplate_template_cases (cfg : Config) (pk lang : String) :
    (fixSelectTemplate cfg pk lang).template = cfg.Prompts.Default ∨
    (fixSelectTemplate cfg pk lang).template = cfg.Prompts.EnglishFixOnly := by
  unfold fixSelectTemplate
  repeat' split
  all_goals simp

/-- C8: for every captured input text that is empty or whitespace-only,
both orchestrators — run on a resolved configuration with a non-empty API
key — exit cleanly (exit code 0) having opened the editor but made no
model call, produced no output, and written nothing to the clipboard. -/
theorem empty_input_clean_exit (c0 : Config) (apiKey lf pk : String)
    (mc : Bool) (mk : String) (lc : Bool) (alf : String) (amc : Bool) (amk : String)
    (copyFlag : Bool) (editorText : String) (mres mres2 : Except String String)
    (clip : Bool)
    (hkey : apiKey ≠ "") (hempty : goTrimSpace editorText = "") :
    fixRun (initConfigDefaults c0) apiKey lf pk mc mk editorText mres clip
      = ⟨true, [.openEditor]⟩ ∧
    answerRun (initConfigDefaults c0) apiKey lc alf amc amk copyFlag editorText mres2
      = ⟨true, [.openEditor]⟩ := by
  have hkey' : (apiKey == "") = false := by simpa using hkey
  have htempl : ((fixAssemble (initConfigDefaults c0) lf pk mc mk).choice.template == "")
      = false := by
    have hcases := fixSelectTemplate_template_cases (initConfigDefaults c0) pk
      (if lf != "" then lf else (initConfigDefaults c0).DefaultLanguage)
    have hdef : (initConfigDefaults c0).Prompts.Default ≠ "" :=
      healPrompt_ne _ _ (by decide)
    have heng : (initConfigDefaults c0).Prompts.EnglishFixOnly ≠ "" :=
      healPrompt_ne _ _ (by decide)
    show ((fixSelectTemplate (initConfigDefaults c0) pk _).template == "") = false
    rcases hcases with h | h <;> rw [h] <;> simpa using (by assumption : _ ≠ "")
  have hanswer : ((initConfigDefaults c0).Prompts.AnswerQuestion == "") = false := by
    simpa using fillPrompt_ne c0.Prompts.AnswerQuestion defaultPromptsConfig.AnswerQuestion
      (by decide)
  have hempty' : (goTrimSpace editorText == "") = true := by simpa using hempty
  constructor
  · unfold fixRun
    rw [hkey']
    simp only [Bool.false_eq_true, if_false]
    rw [htempl]
    simp only [Bool.false_eq_true, if_false, hempty']
    rfl
  · unfold answerRun
    rw [hkey']
    simp only [Bool.false_eq_true, if_false]
    rw [hanswer]
    simp only [Bool.false_eq_true, if_false, hempty']
    rfl

/-- C8 witness: with a whitespace-only captured text, both orchestrators on
the configuration resolved from the zero value exit with code 0 and a trace
containing only the editor invocation. -/
theorem empty_input_clean_exit_witness :
    goTrimSpace " \n\t " = "" ∧
    fixRun (initConfigDefaults zeroConfig) "key" "" "" false "" " \n\t " (.ok "x") true
      = ⟨true, [.openEditor]⟩ ∧
    answerRun (initConfigDefaults zeroConfig) "key" false "" false "" false " \n\t " (.ok "x")
      = ⟨true, [.openEditor]⟩ :=
  have h := empty_input_clean_exit zeroConfig "key" "" "" false "" false "" false ""
    false " \n\t " (.ok "x") (.ok "x") true (by decide) (by decide)
  ⟨by decide, h.1, h.2⟩

/-- The end-to-end scenario's assembly: configuration resolved from the
zero value, `--language English`, no `--prompt`, `--mood professional`. -/
def e2eAssembly : FixAssembly :=
  fixAssemble (initConfigDefaults zeroConfig) "English" "" true "professional"

/-- The end-to-end scenario's final string handed to the model client for
input text "helo wrold". -/
def e2eSentPrompt : String :=
  ProcessTextPrompt "helo wrold" e2eAssembly.finalPrompt e2eAssembly.choice.targetLanguage

/-- C7: the assembler replaces only `{MOOD_INSTRUCTION}` (the assembled
prompt still carries `{TEXT}`, and `{LANGUAGE}` where the template has it);
the model-client boundary then fills `{TEXT}` and `{LANGUAGE}`.  End to end,
for input "helo wrold", task fix, language English, mood professional, the
final string handed to the model contains the literal input text, the
string "English", and the professional mood's instruction, with no
remaining `{MOOD_INSTRUCTION}` token. -/
theorem fix_end_to_end_substitution :
    goContains e2eAssembly.finalPrompt "{TEXT}" = true ∧
    goContains (assemblePrompt (initConfigDefaults zeroConfig).Prompts.Default
        e2eAssembly.mood.instruction) "{LANGUAGE}" = true ∧
    goContains e2eSentPrompt "helo wrold" = true ∧
    goContains e2eSentPrompt "English" = true ∧
    e2eAssembly.mood.instruction
      = ((((initConfigDefaults zeroConfig).Moods.lookup "professional").map
            MoodInstruction.Instruction).getD "") ∧
    e2eAssembly.mood.instruction ≠ "" ∧
    goContains e2eSentPrompt e2eAssembly.mood.instruction = true ∧
    goContains e2eSentPrompt "{MOOD_INSTRUCTION}" = false ∧
    (fixRun (initConfigDefaults zeroConfig) "key" "English" "" true "professional"
        "helo wrold" (.ok "Hello world") true).effects
      = [.openEditor, .modelCall e2eSentPrompt, .clipboardWrite "Hello world"] := by
  refine ⟨by decide, by decide, by decide, by decide, by decide, by decide, by decide,
    by decide, by decide⟩

/-- C10 (counterexample): an input text equal to the `{LANGUAGE}` token,
processed with template `{TEXT}` and resolved language `{LANGUAGE}`,
produces a final prompt that contains the input text verbatim even though
the input contains the substring `{LANGUAGE}` — refuting the claim's "the
input text does not appear verbatim in that case". -/
theorem processtext_language_token_counterexample :
    goContains "{LANGUAGE}" "{LANGUAGE}" = true ∧
    ProcessTextPrompt "{LANGUAGE}" "{TEXT}" "{LANGUAGE}" = "{LANGUAGE}" ∧
    goContains (ProcessTextPrompt "{LANGUAGE}" "{TEXT}" "{LANGUAGE}") "{LANGUAGE}" = true := by
  refine ⟨by decide, by decide, by decide⟩

/-- C10 (amended): `ProcessText` substitutes `{TEXT}` before `{LANGUAGE}`
by literal find-and-replace, so `{LANGUAGE}` occurrences inside the user's
input are replaced too; whenever the final prompt no longer contains the
`{LANGUAGE}` token at all (substitution can reintroduce it, e.g. when the
resolved language string contains the token), the input text cannot appear
verbatim in the final prompt. -/
theorem processtext_substitution_order (text tmpl lang : String)
    (hin : goContains text "{LANGUAGE}" = true)
    (hout : goContains (ProcessTextPrompt text tmpl lang) "{LANGUAGE}" = false) :
    ProcessTextPrompt text tmpl lang
      = goReplaceAll (goReplaceAll tmpl "{TEXT}" text) "{LANGUAGE}" lang ∧
    goContains (ProcessTextPrompt text tmpl lang) text = false := by
  refine ⟨rfl, ?_⟩
  by_contra hcon
  have htrue : goContains (ProcessTextPrompt text tmpl lang) text = true := by
    simpa using hcon
  have h1 := (goContains_spec (ProcessTextPrompt text tmpl lang) text).mp htrue
  have h2 := (goContains_spec text "{LANGUAGE}").mp hin
  have h3 := (goContains_spec (ProcessTextPrompt text tmpl lang) "{LANGUAGE}").mpr
    (h2.trans h1)
  rw [hout] at h3
  exact Bool.false_ne_true h3

/-- C10 witness: for input "a\x7bLANGUAGE\x7db", template `{TEXT}` and
language "English", the final prompt is "aEnglishb": the token inside the
input was replaced and the input does not appear verbatim. -/
theorem processtext_substitution_order_witness :
    (goContains "a{LANGUAGE}b" "{LANGUAGE}" = true ∧
     goContains (ProcessTextPrompt "a{LANGUAGE}b" "{TEXT}" "English") "{LANGUAGE}" = false ∧
     ProcessTextPrompt "a{LANGUAGE}b" "{TEXT}" "English" = "aEnglishb") ∧
    ProcessTextPrompt "a{LANGUAGE}b" "{TEXT}" "English"
      = goReplaceAll (goReplaceAll "{TEXT}" "{TEXT}" "a{LANGUAGE}b") "{LANGUAGE}" "English" ∧
    goContains (ProcessTextPrompt "a{LANGUAGE}b" "{TEXT}" "English") "a{LANGUAGE}b" = false :=
  have h := processtext_substitution_order "a{LANGUAGE}b" "{TEXT}" "English"
    (by decide) (by decide)
  ⟨⟨by decide, by decide, by decide⟩, h.1, h.2⟩

end Qik
